import Mathlib

/-!
Shallow embedding of the Healthcare-devkube backend (`server/server.js`):
an Express application with signup/login handlers over a MongoDB user
collection, create/list handlers for appointments, medical records and
billing entries, and observability endpoints (`/health`, `/metrics`).

Request/response bodies are modelled as a small JSON value type; the
document store is modelled by explicit operation outcomes (`Except` of a
store error), so that connectivity failures and duplicate-key races are
explicit inputs.  Handlers additionally return a trace of the store
operations they performed, mirroring the sequencing of `await` calls in
the source.
-/

/-- JSON values, as produced by `res.json(...)` and parsed by
`express.json()`. -/
inductive JVal where
  | str : String → JVal
  | num : Int → JVal
  | bool : Bool → JVal
  | null : JVal
  | obj : List (String × JVal) → JVal
  | arr : List JVal → JVal
  deriving Repr, BEq

mutual

/-- Whether a key occurs anywhere in a JSON value (any nesting depth). -/
def JVal.hasKey (k : String) : JVal → Bool
  | JVal.str _ => false
  | JVal.num _ => false
  | JVal.bool _ => false
  | JVal.null => false
  | JVal.obj fs => JVal.hasKeyFields k fs
  | JVal.arr es => JVal.hasKeyList k es

/-- Key occurrence in an object field list. -/
def JVal.hasKeyFields (k : String) : List (String × JVal) → Bool
  | [] => false
  | (k2, v) :: rest => k2 = k || JVal.hasKey k v || JVal.hasKeyFields k rest

/-- Key occurrence in an array element list. -/
def JVal.hasKeyList (k : String) : List JVal → Bool
  | [] => false
  | v :: rest => JVal.hasKey k v || JVal.hasKeyList k rest

end

/-- Top-level key list of an object (empty for non-objects). -/
def JVal.topKeys : JVal → List String
  | JVal.obj fs => fs.map Prod.fst
  | _ => []

/-- Top-level lookup of a key in an object value. -/
def JVal.getKey : JVal → String → Option JVal
  | JVal.obj fs, k => fs.lookup k
  | _, _ => none

/-- Elements of an array value (empty for non-arrays). -/
def JVal.elems : JVal → List JVal
  | JVal.arr es => es
  | _ => []

/-- An HTTP response: status code plus JSON body, as built by
`res.status(code).json(body)`. -/
structure HttpResponse where
  status : Nat
  body : JVal
  deriving Repr, BEq

/-- A stored user document (the `User` Mongoose model): `username`,
`email` and `password` — the `password` field holds the bcrypt hash
written by the signup handler. -/
structure UserDoc where
  username : String
  email : String
  password : String
  deriving Repr, DecidableEq

/-- Store-level errors surfaced by awaited Mongoose operations: a
duplicate-key error (MongoDB code 11000, carrying the conflicting
`keyValue` document) or any other error (connectivity, timeout, ...)
with its enumerable diagnostic content. -/
inductive DbErr where
  | duplicateKey : List (String × String) → DbErr
  | other : String → DbErr
  deriving Repr, DecidableEq

/-- Serialization of a caught store error when a handler places it in a
response body (`res.json({ message, error })`): the enumerable fields of
a MongoDB duplicate-key error are its `code` and `keyValue`; other
errors are modelled by their diagnostic message. -/
def jvalOfErr : DbErr → JVal
  | DbErr.duplicateKey kv =>
      JVal.obj [("code", JVal.num 11000),
                ("keyValue", JVal.obj (kv.map (fun p => (p.1, JVal.str p.2))))]
  | DbErr.other m => JVal.obj [("message", JVal.str m)]

/-- Store operations a handler can perform, recorded in order. -/
inductive DbOp where
  | findOneEmail : String → DbOp
  | findOneUsername : String → DbOp
  | saveUser : UserDoc → DbOp
  deriving Repr, DecidableEq

/-- Outcomes of the store operations the signup handler may perform,
supplied by the environment: the two `findOne` pre-checks and the
`save`.  A disconnected store is modelled by `Except.error` outcomes;
a duplicate-key race is an `Except.error (DbErr.duplicateKey _)` on
`saveResult`. -/
structure SignupDb where
  findByEmail : Except DbErr (Option UserDoc)
  findByUsername : Except DbErr (Option UserDoc)
  saveResult : Except DbErr Unit

/-- The signup handler's `catch` block: MongoDB duplicate-key errors
(code 11000) map the first conflicting field of `error.keyValue` to a
field-specific message (`Object.keys(error.keyValue)[0]`); any other
error yields a 500.  An empty `keyValue` makes `field` the JS value
`undefined`, which interpolates as the string "undefined". -/
def signupCatch (err : DbErr) : HttpResponse :=
  match err with
  | DbErr.duplicateKey kv =>
      match kv.head? with
      | some (f, _) =>
          if f = "username" then
            { status := 400, body := JVal.obj [("message", JVal.str "Username already taken")] }
          else if f = "email" then
            { status := 400, body := JVal.obj [("message", JVal.str "Email already in use")] }
          else
            { status := 400, body := JVal.obj [("message", JVal.str (f ++ " already exists"))] }
      | none =>
          { status := 400, body := JVal.obj [("message", JVal.str "undefined already exists")] }
  | DbErr.other _ =>
      { status := 500,
        body := JVal.obj [("message", JVal.str "Error registering user. Please try again.")] }

/-- The `POST /api/signup` handler.  Body fields arrive via JS
destructuring, so an absent field is `undefined` (`none`); the guard
`!username || !email || !password` also rejects empty strings (the only
falsy strings).  Returns the response, the ordered trace of store
operations performed, and the document saved (when the save succeeded).
The password is hashed (`bcrypt.hash(password, 10)`) before the save;
`hash` is the hashing primitive. -/
def signupHandler (username email password : Option String)
    (db : SignupDb) (hash : String → String) :
    HttpResponse × List DbOp × Option UserDoc :=
  match username, email, password with
  | some u, some e, some p =>
      if u = "" || e = "" || p = "" then
        ({ status := 400, body := JVal.obj [("message", JVal.str "All fields are required")] },
         [], none)
      else
        match db.findByEmail with
        | Except.error err => (signupCatch err, [DbOp.findOneEmail e], none)
        | Except.ok (some _) =>
            ({ status := 400, body := JVal.obj [("message", JVal.str "Email already in use")] },
             [DbOp.findOneEmail e], none)
        | Except.ok none =>
            match db.findByUsername with
            | Except.error err =>
                (signupCatch err, [DbOp.findOneEmail e, DbOp.findOneUsername u], none)
            | Except.ok (some _) =>
                ({ status := 400, body := JVal.obj [("message", JVal.str "Username already taken")] },
                 [DbOp.findOneEmail e, DbOp.findOneUsername u], none)
            | Except.ok none =>
                let doc : UserDoc := { username := u, email := e, password := hash p }
                match db.saveResult with
                | Except.error err =>
                    (signupCatch err,
                     [DbOp.findOneEmail e, DbOp.findOneUsername u, DbOp.saveUser doc], none)
                | Except.ok _ =>
                    ({ status := 201,
                       body := JVal.obj [("message", JVal.str "User registered successfully!")] },
                     [DbOp.findOneEmail e, DbOp.findOneUsername u, DbOp.saveUser doc],
                     some doc)
  | _, _, _ =>
      ({ status := 400, body := JVal.obj [("message", JVal.str "All fields are required")] },
       [], none)

/-- The `POST /api/login` handler.  The hardcoded admin check runs
before any store access; otherwise the handler awaits
`User.findOne({ email })` (outcome `dbFind`) and verifies the password
with `bcrypt.compare` (`compare plaintext storedHash`).  Returns the
response and the trace of store operations performed. -/
def loginHandler (email password : String)
    (dbFind : Except DbErr (Option UserDoc))
    (compare : String → String → Bool) :
    HttpResponse × List DbOp :=
  if email = "admin" ∧ password = "admin123" then
    ({ status := 200,
       body := JVal.obj [("message", JVal.str "Admin login successful"),
                         ("redirectTo", JVal.str "/admin")] }, [])
  else
    match dbFind with
    | Except.error err =>
        ({ status := 500,
           body := JVal.obj [("message", JVal.str "Error logging in"),
                             ("error", jvalOfErr err)] },
         [DbOp.findOneEmail email])
    | Except.ok none =>
        ({ status := 401,
           body := JVal.obj [("message", JVal.str "Invalid email or password")] },
         [DbOp.findOneEmail email])
    | Except.ok (some u) =>
        if compare password u.password then
          ({ status := 200, body := JVal.obj [("message", JVal.str "Login successful")] },
           [DbOp.findOneEmail email])
        else
          ({ status := 401,
             body := JVal.obj [("message", JVal.str "Invalid email or password")] },
           [DbOp.findOneEmail email])

/-- A user document as it rests in the store: the driver-assigned
`_id` (an ObjectId, serialized as its hex string) together with the
schema paths.  `new User(...)` receives its ObjectId from the driver at
construction; the handler code never touches it. -/
structure StoredUser where
  oid : String
  doc : UserDoc
  deriving Repr, DecidableEq

/-- Projection used by `GET /api/users`: `User.find({}, 'username email')`
is an inclusive Mongoose projection, which selects the `username` and
`email` paths AND always includes `_id` (it would have to be excluded
explicitly, which the source does not do). -/
def usersProjection (us : List StoredUser) : JVal :=
  JVal.arr (us.map (fun u =>
    JVal.obj [("_id", JVal.str u.oid),
              ("username", JVal.str u.doc.username),
              ("email", JVal.str u.doc.email)]))

/-- The `GET /api/users` handler over the outcome of the projected
`find`. -/
def usersHandler (dbFind : Except DbErr (List StoredUser)) : HttpResponse :=
  match dbFind with
  | Except.ok us => { status := 200, body := usersProjection us }
  | Except.error err =>
      { status := 500,
        body := JVal.obj [("message", JVal.str "Error fetching users"),
                          ("error", jvalOfErr err)] }

/-- A `POST /api/appointments` request body after JS destructuring:
each field is the submitted string or `undefined` (`none`).  The `date`
field is kept as the submitted string (a castable date is assumed; cast
failures share the 400 path with validation failures). -/
structure AppointmentBody where
  patientName : Option String
  patientId : Option String
  date : Option String
  time : Option String
  doctor : Option String
  reason : Option String
  status : Option String
  notes : Option String
  deriving Repr, DecidableEq

/-- A stored `Appointment` document after schema defaulting: required
`patientName` and `date`; `status` defaulted to "Scheduled". -/
structure AppointmentDoc where
  patientName : String
  patientId : Option String
  date : String
  time : Option String
  doctor : Option String
  reason : Option String
  status : String
  notes : Option String
  deriving Repr, DecidableEq

/-- Document construction `new Appointment({...})` plus Mongoose
validation on `save()`: required `String`/`Date` paths fail when
`undefined` or empty; the `status` default "Scheduled" applies exactly
when the supplied value is `undefined`. -/
def mkAppointment (b : AppointmentBody) : Option AppointmentDoc :=
  match b.patientName, b.date with
  | some pn, some d =>
      if pn = "" ∨ d = "" then none
      else
        some { patientName := pn, patientId := b.patientId, date := d,
               time := b.time, doctor := b.doctor, reason := b.reason,
               status := b.status.getD "Scheduled", notes := b.notes }
  | _, _ => none

/-- An optional path in a serialized document: Mongoose omits
`undefined` paths from the JSON output. -/
def optField (k : String) : Option String → List (String × JVal)
  | none => []
  | some s => [(k, JVal.str s)]

/-- Serialization of an appointment document (`res.json(appointment)`). -/
def jvalOfAppointment (a : AppointmentDoc) : JVal :=
  JVal.obj ([("patientName", JVal.str a.patientName)]
    ++ optField "patientId" a.patientId
    ++ [("date", JVal.str a.date)]
    ++ optField "time" a.time
    ++ optField "doctor" a.doctor
    ++ optField "reason" a.reason
    ++ [("status", JVal.str a.status)]
    ++ optField "notes" a.notes)

/-- Serialization of a Mongoose validation error (the enumerable `name`
of a `ValidationError`), as placed under the `error` key of a 400
response. -/
def validationErrJval : JVal := JVal.obj [("name", JVal.str "ValidationError")]

/-- The `POST /api/appointments` handler: builds the document, saves it,
and either echoes the created document with 201 or responds 400 with
the caught error.  `saveResult` is the store outcome for a valid
document; validation failures never reach the store. -/
def appointmentsPostHandler (b : AppointmentBody)
    (saveResult : Except DbErr Unit) : HttpResponse × Option AppointmentDoc :=
  match mkAppointment b with
  | none =>
      ({ status := 400,
         body := JVal.obj [("message", JVal.str "Error creating appointment"),
                           ("error", validationErrJval)] }, none)
  | some doc =>
      match saveResult with
      | Except.error err =>
          ({ status := 400,
             body := JVal.obj [("message", JVal.str "Error creating appointment"),
                               ("error", jvalOfErr err)] }, none)
      | Except.ok _ =>
          ({ status := 201, body := jvalOfAppointment doc }, some doc)

/-- The `GET /api/appointments` handler over the outcome of
`Appointment.find()`. -/
def appointmentsGetHandler (dbFind : Except DbErr (List AppointmentDoc)) :
    HttpResponse :=
  match dbFind with
  | Except.ok as =>
      { status := 200, body := JVal.arr (as.map jvalOfAppointment) }
  | Except.error err =>
      { status := 500,
        body := JVal.obj [("message", JVal.str "Error fetching appointments"),
                          ("error", jvalOfErr err)] }

/-- A `POST /api/records` request body after destructuring. -/
structure RecordBody where
  patientName : Option String
  patientId : Option String
  dateOfBirth : Option String
  condition : Option String
  treatment : Option String
  medications : Option String
  notes : Option String
  deriving Repr, DecidableEq

/-- A stored `MedicalRecord` document: required `patientName` and
`condition`. -/
structure RecordDoc where
  patientName : String
  patientId : Option String
  dateOfBirth : Option String
  condition : String
  treatment : Option String
  medications : Option String
  notes : Option String
  deriving Repr, DecidableEq

/-- Document construction and validation for `new MedicalRecord({...})`. -/
def mkRecord (b : RecordBody) : Option RecordDoc :=
  match b.patientName, b.condition with
  | some pn, some c =>
      if pn = "" ∨ c = "" then none
      else
        some { patientName := pn, patientId := b.patientId,
               dateOfBirth := b.dateOfBirth, condition := c,
               treatment := b.treatment, medications := b.medications,
               notes := b.notes }
  | _, _ => none

/-- Serialization of a medical-record document. -/
def jvalOfRecord (r : RecordDoc) : JVal :=
  JVal.obj ([("patientName", JVal.str r.patientName)]
    ++ optField "patientId" r.patientId
    ++ optField "dateOfBirth" r.dateOfBirth
    ++ [("condition", JVal.str r.condition)]
    ++ optField "treatment" r.treatment
    ++ optField "medications" r.medications
    ++ optField "notes" r.notes)

/-- The `POST /api/records` handler. -/
def recordsPostHandler (b : RecordBody) (saveResult : Except DbErr Unit) :
    HttpResponse × Option RecordDoc :=
  match mkRecord b with
  | none =>
      ({ status := 400,
         body := JVal.obj [("message", JVal.str "Error creating medical record"),
                           ("error", validationErrJval)] }, none)
  | some doc =>
      match saveResult with
      | Except.error err =>
          ({ status := 400,
             body := JVal.obj [("message", JVal.str "Error creating medical record"),
                               ("error", jvalOfErr err)] }, none)
      | Except.ok _ => ({ status := 201, body := jvalOfRecord doc }, some doc)

/-- A `POST /api/billings` request body after destructuring; `amount`
is a number when present (the transport layer performs no coercion). -/
structure BillingBody where
  patientName : Option String
  patientId : Option String
  serviceType : Option String
  amount : Option Int
  paymentMethod : Option String
  insuranceProvider : Option String
  insurancePolicyNumber : Option String
  billingAddress : Option String
  deriving Repr, DecidableEq

/-- A stored `Billing` document: required `patientName`, `amount`,
`paymentMethod`. -/
structure BillingDoc where
  patientName : String
  patientId : Option String
  serviceType : Option String
  amount : Int
  paymentMethod : String
  insuranceProvider : Option String
  insurancePolicyNumber : Option String
  billingAddress : Option String
  deriving Repr, DecidableEq

/-- Document construction and validation for `new Billing({...})`. -/
def mkBilling (b : BillingBody) : Option BillingDoc :=
  match b.patientName, b.amount, b.paymentMethod with
  | some pn, some amt, some pm =>
      if pn = "" ∨ pm = "" then none
      else
        some { patientName := pn, patientId := b.patientId,
               serviceType := b.serviceType, amount := amt,
               paymentMethod := pm, insuranceProvider := b.insuranceProvider,
               insurancePolicyNumber := b.insurancePolicyNumber,
               billingAddress := b.billingAddress }
  | _, _, _ => none

/-- Serialization of a billing document. -/
def jvalOfBilling (bd : BillingDoc) : JVal :=
  JVal.obj ([("patientName", JVal.str bd.patientName)]
    ++ optField "patientId" bd.patientId
    ++ optField "serviceType" bd.serviceType
    ++ [("amount", JVal.num bd.amount)]
    ++ [("paymentMethod", JVal.str bd.paymentMethod)]
    ++ optField "insuranceProvider" bd.insuranceProvider
    ++ optField "insurancePolicyNumber" bd.insurancePolicyNumber
    ++ optField "billingAddress" bd.billingAddress)

/-- The `POST /api/billings` handler. -/
def billingsPostHandler (b : BillingBody) (saveResult : Except DbErr Unit) :
    HttpResponse × Option BillingDoc :=
  match mkBilling b with
  | none =>
      ({ status := 400,
         body := JVal.obj [("message", JVal.str "Error creating billing record"),
                           ("error", validationErrJval)] }, none)
  | some doc =>
      match saveResult with
      | Except.error err =>
          ({ status := 400,
             body := JVal.obj [("message", JVal.str "Error creating billing record"),
                               ("error", jvalOfErr err)] }, none)
      | Except.ok _ => ({ status := 201, body := jvalOfBilling doc }, some doc)

/-- An inbound HTTP request: method, path, and parsed JSON body
(`express.json()` yields an object; an absent body is the empty
object). -/
structure Request where
  method : String
  path : String
  reqBody : List (String × JVal)

/-- JS destructuring of a string-valued body field: the submitted
string, or `undefined` (`none`) when absent or not a string. -/
def getStr (b : List (String × JVal)) (k : String) : Option String :=
  match b.lookup k with
  | some (JVal.str s) => some s
  | _ => none

/-- JS destructuring of a number-valued body field. -/
def getNum (b : List (String × JVal)) (k : String) : Option Int :=
  match b.lookup k with
  | some (JVal.num n) => some n
  | _ => none

/-- Process-wide server state: the `global.requestCount` counter, the
Mongoose `connection.readyState` (1 = connected), the process clock and
memory snapshot, the store collections, and the ObjectId the driver
will assign to the next created user document. -/
structure ServerState where
  requestCount : Nat
  readyState : Nat
  uptimeSec : Nat
  nowIso : String
  nowMs : Nat
  memory : JVal
  users : List StoredUser
  nextOid : String
  appointments : List AppointmentDoc
  medRecords : List RecordDoc
  billings : List BillingDoc

/-- Outcome of a store read when the collection is list-backed:
succeeds with the collection exactly when the connection is up,
otherwise fails with the driver's buffering-timeout error. -/
def stRead {α : Type} (st : ServerState) (a : α) : Except DbErr α :=
  if st.readyState = 1 then Except.ok a
  else Except.error (DbErr.other "buffering timed out")

/-- Outcome of a store write: succeeds exactly when the connection is
up.  (Duplicate-key races need interleaved requests and are covered by
the handler-level model, which takes arbitrary outcomes.) -/
def stWrite (st : ServerState) : Except DbErr Unit :=
  if st.readyState = 1 then Except.ok ()
  else Except.error (DbErr.other "buffering timed out")

/-- The signup handler's store outcomes derived from the server state:
`findOne` by email / by username over the users collection, and the
save outcome. -/
def stSignupDb (st : ServerState) (e u : String) : SignupDb :=
  { findByEmail :=
      stRead st ((st.users.find? (fun d => d.doc.email = e)).map StoredUser.doc),
    findByUsername :=
      stRead st ((st.users.find? (fun d => d.doc.username = u)).map StoredUser.doc),
    saveResult := stWrite st }

/-- The `GET /` root route. -/
def rootHandler (st : ServerState) : HttpResponse :=
  { status := 200,
    body := JVal.obj [("message", JVal.str "Healthcare Backend Server is running!"),
                      ("status", JVal.str "healthy"),
                      ("timestamp", JVal.str st.nowIso),
                      ("environment", JVal.str "development"),
                      ("port", JVal.num 5002)] }

/-- The `GET /health` route: always 200; the `database` field reflects
the live `mongoose.connection.readyState` (1 means connected, anything
else reports "disconnected"). -/
def healthHandler (readyState uptimeSec : Nat) (nowIso : String) : HttpResponse :=
  { status := 200,
    body := JVal.obj [("status", JVal.str "healthy"),
                      ("uptime", JVal.num uptimeSec),
                      ("timestamp", JVal.str nowIso),
                      ("database", JVal.str (if readyState = 1 then "connected" else "disconnected"))] }

/-- The `GET /metrics` route: a point-in-time snapshot of uptime,
memory usage, raw `readyState`, the request counter
(`global.requestCount || 0`), and a capture timestamp. -/
def metricsHandler (st : ServerState) : HttpResponse :=
  { status := 200,
    body := JVal.obj [("uptime_seconds", JVal.num st.uptimeSec),
                      ("memory_usage", st.memory),
                      ("database_status", JVal.num st.readyState),
                      ("requests_total", JVal.num st.requestCount),
                      ("timestamp", JVal.num st.nowMs)] }

/-- Destructuring of a `POST /api/appointments` body. -/
def appointmentBodyOf (b : List (String × JVal)) : AppointmentBody :=
  { patientName := getStr b "patientName", patientId := getStr b "patientId",
    date := getStr b "date", time := getStr b "time",
    doctor := getStr b "doctor", reason := getStr b "reason",
    status := getStr b "status", notes := getStr b "notes" }

/-- Destructuring of a `POST /api/records` body. -/
def recordBodyOf (b : List (String × JVal)) : RecordBody :=
  { patientName := getStr b "patientName", patientId := getStr b "patientId",
    dateOfBirth := getStr b "dateOfBirth", condition := getStr b "condition",
    treatment := getStr b "treatment", medications := getStr b "medications",
    notes := getStr b "notes" }

/-- Destructuring of a `POST /api/billings` body. -/
def billingBodyOf (b : List (String × JVal)) : BillingBody :=
  { patientName := getStr b "patientName", patientId := getStr b "patientId",
    serviceType := getStr b "serviceType", amount := getNum b "amount",
    paymentMethod := getStr b "paymentMethod",
    insuranceProvider := getStr b "insuranceProvider",
    insurancePolicyNumber := getStr b "insurancePolicyNumber",
    billingAddress := getStr b "billingAddress" }

/-- One request through the Express app, in registration order: the
`/`, `/health` and `/metrics` routes are registered BEFORE the
request-counter middleware, so requests they match never reach the
counter; every other request passes the counter middleware (increment,
then `next()`), is routed to the matching `/api` handler, and falls
through to the framework 404 when unmatched.  Login treats an absent
string field as the empty string (both are equally not "admin" and
match no stored account, which never has an empty email). -/
def dispatch (hash : String → String) (compare : String → String → Bool)
    (st : ServerState) (req : Request) : ServerState × HttpResponse :=
  if req.method = "GET" ∧ req.path = "/" then (st, rootHandler st)
  else if req.method = "GET" ∧ req.path = "/health" then
    (st, healthHandler st.readyState st.uptimeSec st.nowIso)
  else if req.method = "GET" ∧ req.path = "/metrics" then (st, metricsHandler st)
  else
    let st1 : ServerState := { st with requestCount := st.requestCount + 1 }
    if req.method = "POST" ∧ req.path = "/api/signup" then
      let e := (getStr req.reqBody "email").getD ""
      let u := (getStr req.reqBody "username").getD ""
      let r := signupHandler (getStr req.reqBody "username") (getStr req.reqBody "email")
                 (getStr req.reqBody "password") (stSignupDb st1 e u) hash
      match r.2.2 with
      | some doc =>
          ({ st1 with users := st1.users ++ [{ oid := st1.nextOid, doc := doc }] }, r.1)
      | none => (st1, r.1)
    else if req.method = "POST" ∧ req.path = "/api/login" then
      let e := (getStr req.reqBody "email").getD ""
      let p := (getStr req.reqBody "password").getD ""
      (st1, (loginHandler e p
        (stRead st1 ((st1.users.find? (fun d => d.doc.email = e)).map StoredUser.doc))
        compare).1)
    else if req.method = "GET" ∧ req.path = "/api/appointments" then
      (st1, appointmentsGetHandler (stRead st1 st1.appointments))
    else if req.method = "POST" ∧ req.path = "/api/appointments" then
      let r := appointmentsPostHandler (appointmentBodyOf req.reqBody) (stWrite st1)
      match r.2 with
      | some doc => ({ st1 with appointments := st1.appointments ++ [doc] }, r.1)
      | none => (st1, r.1)
    else if req.method = "POST" ∧ req.path = "/api/records" then
      let r := recordsPostHandler (recordBodyOf req.reqBody) (stWrite st1)
      match r.2 with
      | some doc => ({ st1 with medRecords := st1.medRecords ++ [doc] }, r.1)
      | none => (st1, r.1)
    else if req.method = "GET" ∧ req.path = "/api/users" then
      (st1, usersHandler (stRead st1 st1.users))
    else if req.method = "POST" ∧ req.path = "/api/billings" then
      let r := billingsPostHandler (billingBodyOf req.reqBody) (stWrite st1)
      match r.2 with
      | some doc => ({ st1 with billings := st1.billings ++ [doc] }, r.1)
      | none => (st1, r.1)
    else
      (st1, { status := 404,
              body := JVal.str ("Cannot " ++ req.method ++ " " ++ req.path) })

/-- Whether a request is matched by one of the three routes registered
before the request-counter middleware. -/
def earlyRoute (req : Request) : Prop :=
  req.method = "GET" ∧ (req.path = "/" ∨ req.path = "/health" ∨ req.path = "/metrics")

instance earlyRouteDec (req : Request) : Decidable (earlyRoute req) := by
  unfold earlyRoute
  infer_instance

/-- A concrete hashing primitive standing in for `bcrypt.hash` in
closed instantiations: prefixes the bcrypt header. -/
def hash0 : String → String := fun s => "$2a$10$" ++ s

/-- A concrete verification primitive standing in for `bcrypt.compare`,
matching `hash0`. -/
def cmp0 : String → String → Bool := fun p h => h = "$2a$10$" ++ p

/-- A concrete connected server state with one stored user. -/
def st0 : ServerState :=
  { requestCount := 5, readyState := 1, uptimeSec := 42,
    nowIso := "2025-01-01T00:00:00.000Z", nowMs := 1735689600000,
    memory := JVal.obj [("heapUsed", JVal.num 12345678)],
    users := [{ oid := "64b7f0c2a1d2e3f405162738",
                doc := { username := "bob", email := "bob@x.com",
                         password := "$2a$10$pw123456" } }],
    nextOid := "64b7f0c2a1d2e3f405162739",
    appointments := [], medRecords := [], billings := [] }

/-- The same state with the store disconnected (`readyState = 0`). -/
def stDisc : ServerState := { st0 with readyState := 0 }

/-- C1: a login request with email "admin" and password "admin123"
responds 200 with `redirectTo "/admin"`, performs no store operation
(empty trace), and the response is independent of the store outcome —
including an error outcome (disconnected store); likewise through the
full app dispatch for every server state. -/
theorem C1_admin_bypass :
    (∀ (dbFind : Except DbErr (Option UserDoc)) (compare : String → String → Bool),
      loginHandler "admin" "admin123" dbFind compare =
        ({ status := 200,
           body := JVal.obj [("message", JVal.str "Admin login successful"),
                             ("redirectTo", JVal.str "/admin")] }, [])) ∧
    (∀ (hash : String → String) (compare : String → String → Bool) (st : ServerState),
      (dispatch hash compare st
        { method := "POST", path := "/api/login",
          reqBody := [("email", JVal.str "admin"), ("password", JVal.str "admin123")] }).2 =
        { status := 200,
          body := JVal.obj [("message", JVal.str "Admin login successful"),
                            ("redirectTo", JVal.str "/admin")] }) := by
  constructor
  · intro dbFind compare
    simp [loginHandler]
  · intro hash compare st
    simp +decide [dispatch, loginHandler, getStr, List.lookup]

/-- C3: against the same store, a login with an unknown email and a
login with a known email but wrong password (bcrypt mismatch) both
yield status 401 with identical bodies, so the response does not reveal
account existence.  The admin literals are excluded since they short-
circuit before the store. -/
theorem C3_login_indistinguishable (e1 p1 e2 p2 : String) (u : UserDoc)
    (compare : String → String → Bool)
    (h1 : ¬(e1 = "admin" ∧ p1 = "admin123"))
    (h2 : ¬(e2 = "admin" ∧ p2 = "admin123"))
    (hc : compare p2 u.password = false) :
    (loginHandler e1 p1 (Except.ok none) compare).1.status = 401 ∧
    (loginHandler e2 p2 (Except.ok (some u)) compare).1.status = 401 ∧
    (loginHandler e1 p1 (Except.ok none) compare).1.body =
      (loginHandler e2 p2 (Except.ok (some u)) compare).1.body := by
  simp [loginHandler, h1, h2, hc]

/-- Closed instantiation of C3 at a concrete user and wrong password. -/
theorem C3_login_indistinguishable_witness :
    (loginHandler "ghost@x.com" "pw1" (Except.ok none) cmp0).1.status = 401 ∧
    (loginHandler "bob@x.com" "wrongpw"
      (Except.ok (some { username := "bob", email := "bob@x.com",
                         password := "$2a$10$pw123456" })) cmp0).1.status = 401 ∧
    (loginHandler "ghost@x.com" "pw1" (Except.ok none) cmp0).1.body =
      (loginHandler "bob@x.com" "wrongpw"
        (Except.ok (some { username := "bob", email := "bob@x.com",
                           password := "$2a$10$pw123456" })) cmp0).1.body :=
  C3_login_indistinguishable "ghost@x.com" "pw1" "bob@x.com" "wrongpw"
    { username := "bob", email := "bob@x.com", password := "$2a$10$pw123456" }
    cmp0 (by simp) (by simp) (by decide)

/-- C7: the health endpoint responds 200 for every connectivity state;
its body reports uptime, the current timestamp, and "connected" exactly
when `readyState = 1`, else "disconnected"; through the app dispatch the
status is 200 for every server state, disconnected included. -/
theorem C7_health_always_200 :
    (∀ (readyState uptimeSec : Nat) (nowIso : String),
      (healthHandler readyState uptimeSec nowIso).status = 200 ∧
      (healthHandler readyState uptimeSec nowIso).body.getKey "database" =
        some (JVal.str (if readyState = 1 then "connected" else "disconnected")) ∧
      (healthHandler readyState uptimeSec nowIso).body.getKey "uptime" =
        some (JVal.num uptimeSec) ∧
      (healthHandler readyState uptimeSec nowIso).body.getKey "timestamp" =
        some (JVal.str nowIso)) ∧
    (∀ (hash : String → String) (compare : String → String → Bool) (st : ServerState)
      (b : List (String × JVal)),
      (dispatch hash compare st { method := "GET", path := "/health", reqBody := b }).2.status
        = 200) := by
  constructor
  · intro readyState uptimeSec nowIso
    refine ⟨rfl, ?_, ?_, ?_⟩ <;> simp [healthHandler, JVal.getKey, List.lookup]
  · intro hash compare st b
    simp [dispatch, healthHandler]

/-- C2: signup rejects with 400 and persists nothing when a field is
missing (or falsy-empty); with all fields present it runs the email
pre-check before the username pre-check — an existing email answers
"Email already in use" with no username lookup, an existing username
after an email miss answers "Username already taken"; a store-level
duplicate-key error on save maps the conflicting field to those same
two messages and any other duplicate field to "<field> already exists";
any other persistence error yields 500. -/
theorem C2_signup_behaviour :
    (∀ (username email password : Option String) (db : SignupDb) (hash : String → String),
      (username = none ∨ email = none ∨ password = none ∨
       username = some "" ∨ email = some "" ∨ password = some "") →
      signupHandler username email password db hash =
        ({ status := 400, body := JVal.obj [("message", JVal.str "All fields are required")] },
         [], none)) ∧
    (∀ (u e p : String) (d : UserDoc) (db : SignupDb) (hash : String → String),
      u ≠ "" → e ≠ "" → p ≠ "" → db.findByEmail = Except.ok (some d) →
      signupHandler (some u) (some e) (some p) db hash =
        ({ status := 400, body := JVal.obj [("message", JVal.str "Email already in use")] },
         [DbOp.findOneEmail e], none)) ∧
    (∀ (u e p : String) (d : UserDoc) (db : SignupDb) (hash : String → String),
      u ≠ "" → e ≠ "" → p ≠ "" → db.findByEmail = Except.ok none →
      db.findByUsername = Except.ok (some d) →
      signupHandler (some u) (some e) (some p) db hash =
        ({ status := 400, body := JVal.obj [("message", JVal.str "Username already taken")] },
         [DbOp.findOneEmail e, DbOp.findOneUsername u], none)) ∧
    (∀ (u e p f v : String) (rest : List (String × String)) (db : SignupDb)
       (hash : String → String),
      u ≠ "" → e ≠ "" → p ≠ "" → db.findByEmail = Except.ok none →
      db.findByUsername = Except.ok none →
      db.saveResult = Except.error (DbErr.duplicateKey ((f, v) :: rest)) →
      (signupHandler (some u) (some e) (some p) db hash).2.2 = none ∧
      (f = "email" →
        (signupHandler (some u) (some e) (some p) db hash).1 =
          { status := 400, body := JVal.obj [("message", JVal.str "Email already in use")] }) ∧
      (f = "username" →
        (signupHandler (some u) (some e) (some p) db hash).1 =
          { status := 400, body := JVal.obj [("message", JVal.str "Username already taken")] }) ∧
      (f ≠ "email" → f ≠ "username" →
        (signupHandler (some u) (some e) (some p) db hash).1 =
          { status := 400, body := JVal.obj [("message", JVal.str (f ++ " already exists"))] })) ∧
    (∀ (u e p m : String) (db : SignupDb) (hash : String → String),
      u ≠ "" → e ≠ "" → p ≠ "" → db.findByEmail = Except.ok none →
      db.findByUsername = Except.ok none →
      db.saveResult = Except.error (DbErr.other m) →
      (signupHandler (some u) (some e) (some p) db hash).1 =
        { status := 500,
          body := JVal.obj [("message", JVal.str "Error registering user. Please try again.")] } ∧
      (signupHandler (some u) (some e) (some p) db hash).2.2 = none) ∧
    (∀ (u e p m : String) (db : SignupDb) (hash : String → String),
      u ≠ "" → e ≠ "" → p ≠ "" → db.findByEmail = Except.error (DbErr.other m) →
      (signupHandler (some u) (some e) (some p) db hash).1 =
        { status := 500,
          body := JVal.obj [("message", JVal.str "Error registering user. Please try again.")] } ∧
      (signupHandler (some u) (some e) (some p) db hash).2.2 = none) := by
  refine ⟨?_, ?_, ?_, ?_, ?_, ?_⟩
  · intro username email password db hash h
    cases username <;> cases email <;> cases password <;> simp_all [signupHandler]
    intro h1 h2 h3
    tauto
  · intro u e p d db hash hu he hp hf
    simp [signupHandler, hu, he, hp, hf]
  · intro u e p d db hash hu he hp hf hg
    simp [signupHandler, hu, he, hp, hf, hg]
  · intro u e p f v rest db hash hu he hp hf hg hs
    refine ⟨?_, ?_, ?_, ?_⟩
    · simp [signupHandler, hu, he, hp, hf, hg, hs, signupCatch]
    · intro hfe
      subst hfe
      simp [signupHandler, hu, he, hp, hf, hg, hs, signupCatch]
    · intro hfu
      subst hfu
      simp [signupHandler, hu, he, hp, hf, hg, hs, signupCatch]
    · intro hne hnu
      simp [signupHandler, hu, he, hp, hf, hg, hs, signupCatch, hne, hnu]
  · intro u e p m db hash hu he hp hf hg hs
    constructor <;> simp [signupHandler, hu, he, hp, hf, hg, hs, signupCatch]
  · intro u e p m db hash hu he hp hf
    constructor <;> simp [signupHandler, hu, he, hp, hf, signupCatch]

/-- A store view with no conflicting account and a working save. -/
def dbAllFree : SignupDb :=
  { findByEmail := Except.ok none, findByUsername := Except.ok none,
    saveResult := Except.ok () }

/-- A store view where the submitted email already has an account. -/
def dbEmailTaken : SignupDb :=
  { findByEmail := Except.ok (some { username := "bob", email := "bob@x.com",
                                     password := "$2a$10$pw123456" }),
    findByUsername := Except.ok none, saveResult := Except.ok () }

/-- A store view where only the submitted username has an account. -/
def dbNameTaken : SignupDb :=
  { findByEmail := Except.ok none,
    findByUsername := Except.ok (some { username := "bob", email := "bob@x.com",
                                        password := "$2a$10$pw123456" }),
    saveResult := Except.ok () }

/-- A store view where a racing writer wins: the pre-checks miss but
the save fails with a duplicate-key error on `email`. -/
def dbDupRace : SignupDb :=
  { findByEmail := Except.ok none, findByUsername := Except.ok none,
    saveResult := Except.error (DbErr.duplicateKey [("email", "bob@x.com")]) }

/-- A disconnected store view: the first read already fails. -/
def dbDown : SignupDb :=
  { findByEmail := Except.error (DbErr.other "buffering timed out"),
    findByUsername := Except.error (DbErr.other "buffering timed out"),
    saveResult := Except.error (DbErr.other "buffering timed out") }

/-- Closed instantiations of C2: a missing username, a taken email, a
taken username, a duplicate-key race on email, and a dead store. -/
theorem C2_signup_behaviour_witness :
    signupHandler none (some "a@x.com") (some "pw123456") dbAllFree hash0 =
      ({ status := 400, body := JVal.obj [("message", JVal.str "All fields are required")] },
       [], none) ∧
    signupHandler (some "alice") (some "bob@x.com") (some "pw123456") dbEmailTaken hash0 =
      ({ status := 400, body := JVal.obj [("message", JVal.str "Email already in use")] },
       [DbOp.findOneEmail "bob@x.com"], none) ∧
    signupHandler (some "bob") (some "a@x.com") (some "pw123456") dbNameTaken hash0 =
      ({ status := 400, body := JVal.obj [("message", JVal.str "Username already taken")] },
       [DbOp.findOneEmail "a@x.com", DbOp.findOneUsername "bob"], none) ∧
    (signupHandler (some "alice") (some "bob@x.com") (some "pw123456") dbDupRace hash0).1 =
      { status := 400, body := JVal.obj [("message", JVal.str "Email already in use")] } ∧
    (signupHandler (some "alice") (some "a@x.com") (some "pw123456") dbDown hash0).1 =
      { status := 500,
        body := JVal.obj [("message", JVal.str "Error registering user. Please try again.")] } :=
  ⟨C2_signup_behaviour.1 none (some "a@x.com") (some "pw123456") dbAllFree hash0 (Or.inl rfl),
   C2_signup_behaviour.2.1 "alice" "bob@x.com" "pw123456"
     { username := "bob", email := "bob@x.com", password := "$2a$10$pw123456" }
     dbEmailTaken hash0 (by decide) (by decide) (by decide) rfl,
   C2_signup_behaviour.2.2.1 "bob" "a@x.com" "pw123456"
     { username := "bob", email := "bob@x.com", password := "$2a$10$pw123456" }
     dbNameTaken hash0 (by decide) (by decide) (by decide) rfl rfl,
   (C2_signup_behaviour.2.2.2.1 "alice" "bob@x.com" "pw123456" "email" "bob@x.com" []
     dbDupRace hash0 (by decide) (by decide) (by decide) rfl rfl rfl).2.1 rfl,
   (C2_signup_behaviour.2.2.2.2.2 "alice" "a@x.com" "pw123456" "buffering timed out"
     dbDown hash0 (by decide) (by decide) (by decide) rfl).1⟩

/-- The inclusive `username email` projection contains no key other
than `_id`, `username` and `email`, at any depth. -/
lemma usersProjection_no_other_key (k : String) (hid : ¬("_id" = k))
    (h1 : ¬("username" = k)) (h2 : ¬("email" = k)) (us : List StoredUser) :
    (usersProjection us).hasKey k = false := by
  induction us with
  | nil => simp [usersProjection, JVal.hasKey, JVal.hasKeyList]
  | cons u t ih =>
      simp [usersProjection, JVal.hasKey, JVal.hasKeyList, JVal.hasKeyFields,
            hid, h1, h2]
      simpa [usersProjection, JVal.hasKey] using ih

/-- Every object in the inclusive `username email` projection has
exactly the top-level keys `_id`, `username` and `email`. -/
lemma usersProjection_shape (us : List StoredUser) :
    ((usersProjection us).elems.all
      (fun v => v.topKeys == ["_id", "username", "email"])) = true := by
  induction us with
  | nil => rfl
  | cons u t ih => simp [usersProjection, JVal.elems, JVal.topKeys]

/-- Key occurrence distributes over appended field lists. -/
lemma hasKeyFields_append (k : String) (l1 l2 : List (String × JVal)) :
    JVal.hasKeyFields k (l1 ++ l2)
      = (JVal.hasKeyFields k l1 || JVal.hasKeyFields k l2) := by
  induction l1 with
  | nil => simp [JVal.hasKeyFields]
  | cons h t ih =>
      cases h
      simp [JVal.hasKeyFields, ih, Bool.or_assoc]

/-- An optional serialized path contributes no foreign key. -/
lemma hasKeyFields_optField (k k2 : String) (o : Option String)
    (h : ¬(k2 = k)) : JVal.hasKeyFields k (optField k2 o) = false := by
  cases o <;> simp [optField, JVal.hasKeyFields, JVal.hasKey, h]

/-- A serialized appointment document contains only its schema keys. -/
lemma jvalOfAppointment_no_key (k : String) (a : AppointmentDoc)
    (h1 : ¬("patientName" = k)) (h2 : ¬("patientId" = k))
    (h3 : ¬("date" = k)) (h4 : ¬("time" = k)) (h5 : ¬("doctor" = k))
    (h6 : ¬("reason" = k)) (h7 : ¬("status" = k)) (h8 : ¬("notes" = k)) :
    (jvalOfAppointment a).hasKey k = false := by
  simp [jvalOfAppointment, JVal.hasKey, hasKeyFields_append, hasKeyFields_optField,
        JVal.hasKeyFields, h1, h2, h3, h4, h5, h6, h7, h8]

/-- A serialized appointment list contains only schema keys. -/
lemma apptList_no_key (k : String)
    (h1 : ¬("patientName" = k)) (h2 : ¬("patientId" = k))
    (h3 : ¬("date" = k)) (h4 : ¬("time" = k)) (h5 : ¬("doctor" = k))
    (h6 : ¬("reason" = k)) (h7 : ¬("status" = k)) (h8 : ¬("notes" = k))
    (as : List AppointmentDoc) :
    JVal.hasKeyList k (as.map jvalOfAppointment) = false := by
  induction as with
  | nil => rfl
  | cons a t ih =>
      simp [JVal.hasKeyList, ih,
            jvalOfAppointment_no_key k a h1 h2 h3 h4 h5 h6 h7 h8]

/-- A serialized medical record contains only its schema keys. -/
lemma jvalOfRecord_no_key (k : String) (r : RecordDoc)
    (h1 : ¬("patientName" = k)) (h2 : ¬("patientId" = k))
    (h3 : ¬("dateOfBirth" = k)) (h4 : ¬("condition" = k))
    (h5 : ¬("treatment" = k)) (h6 : ¬("medications" = k))
    (h7 : ¬("notes" = k)) :
    (jvalOfRecord r).hasKey k = false := by
  simp [jvalOfRecord, JVal.hasKey, hasKeyFields_append, hasKeyFields_optField,
        JVal.hasKeyFields, h1, h2, h3, h4, h5, h6, h7]

/-- A serialized billing entry contains only its schema keys. -/
lemma jvalOfBilling_no_key (k : String) (bd : BillingDoc)
    (h1 : ¬("patientName" = k)) (h2 : ¬("patientId" = k))
    (h3 : ¬("serviceType" = k)) (h4 : ¬("amount" = k))
    (h5 : ¬("paymentMethod" = k)) (h6 : ¬("insuranceProvider" = k))
    (h7 : ¬("insurancePolicyNumber" = k)) (h8 : ¬("billingAddress" = k)) :
    (jvalOfBilling bd).hasKey k = false := by
  simp [jvalOfBilling, JVal.hasKey, hasKeyFields_append, hasKeyFields_optField,
        JVal.hasKeyFields, h1, h2, h3, h4, h5, h6, h7, h8]

/-- A signup response body contains no key other than `message`. -/
lemma signup_no_key (k : String) (hmsg : ¬("message" = k))
    (username email password : Option String) (db : SignupDb)
    (hash : String → String) :
    (signupHandler username email password db hash).1.body.hasKey k = false := by
  unfold signupHandler signupCatch
  repeat' split
  all_goals simp [JVal.hasKey, JVal.hasKeyFields, hmsg]

/-- A login response over a list-backed store contains no key other
than `message`, `redirectTo` and `error` (whose embedded driver error
holds only a `message`). -/
lemma login_stRead_no_key (k : String) (hmsg : ¬("message" = k))
    (herr : ¬("error" = k)) (hred : ¬("redirectTo" = k))
    (e p : String) (st : ServerState) (v : Option UserDoc)
    (compare : String → String → Bool) :
    (loginHandler e p (stRead st v) compare).1.body.hasKey k = false := by
  unfold loginHandler stRead
  by_cases ha : e = "admin" ∧ p = "admin123"
  · rw [if_pos ha]
    simp [JVal.hasKey, JVal.hasKeyFields, hmsg, hred]
  rw [if_neg ha]
  by_cases hc : st.readyState = 1
  · rw [if_pos hc]
    cases v with
    | none => simp [JVal.hasKey, JVal.hasKeyFields, hmsg]
    | some u =>
        cases hcm : compare p u.password <;>
          simp [hcm, JVal.hasKey, JVal.hasKeyFields, hmsg]
  · rw [if_neg hc]
    simp [JVal.hasKey, JVal.hasKeyFields, jvalOfErr, hmsg, herr]

/-- A users-list response over a list-backed store contains no key
other than the projection keys, `message` and `error`. -/
lemma users_stRead_no_key (k : String) (hid : ¬("_id" = k))
    (hun : ¬("username" = k)) (hem : ¬("email" = k))
    (hmsg : ¬("message" = k)) (herr : ¬("error" = k))
    (st : ServerState) (us : List StoredUser) :
    (usersHandler (stRead st us)).body.hasKey k = false := by
  unfold usersHandler stRead
  by_cases hc : st.readyState = 1
  · rw [if_pos hc]
    exact usersProjection_no_other_key k hid hun hem us
  · rw [if_neg hc]
    simp [JVal.hasKey, JVal.hasKeyFields, jvalOfErr, hmsg, herr]

/-- An appointments-list response over a list-backed store contains no
key other than the schema keys, `message` and `error`. -/
lemma apptGet_stRead_no_key (k : String)
    (h1 : ¬("patientName" = k)) (h2 : ¬("patientId" = k))
    (h3 : ¬("date" = k)) (h4 : ¬("time" = k)) (h5 : ¬("doctor" = k))
    (h6 : ¬("reason" = k)) (h7 : ¬("status" = k)) (h8 : ¬("notes" = k))
    (hmsg : ¬("message" = k)) (herr : ¬("error" = k))
    (st : ServerState) (as : List AppointmentDoc) :
    (appointmentsGetHandler (stRead st as)).body.hasKey k = false := by
  unfold appointmentsGetHandler stRead
  by_cases hc : st.readyState = 1
  · rw [if_pos hc]
    simpa [JVal.hasKey] using apptList_no_key k h1 h2 h3 h4 h5 h6 h7 h8 as
  · rw [if_neg hc]
    simp [JVal.hasKey, JVal.hasKeyFields, jvalOfErr, hmsg, herr]

/-- An appointment-create response over a list-backed store contains no
key other than the schema keys, `message`, `error` and the validation
error name. -/
lemma apptPost_stWrite_no_key (k : String)
    (h1 : ¬("patientName" = k)) (h2 : ¬("patientId" = k))
    (h3 : ¬("date" = k)) (h4 : ¬("time" = k)) (h5 : ¬("doctor" = k))
    (h6 : ¬("reason" = k)) (h7 : ¬("status" = k)) (h8 : ¬("notes" = k))
    (hmsg : ¬("message" = k)) (herr : ¬("error" = k)) (hname : ¬("name" = k))
    (b : AppointmentBody) (st : ServerState) :
    (appointmentsPostHandler b (stWrite st)).1.body.hasKey k = false := by
  unfold appointmentsPostHandler stWrite
  by_cases hc : st.readyState = 1
  all_goals first
    | rw [if_pos hc]
    | rw [if_neg hc]
  all_goals cases hmk : mkAppointment b
  all_goals
    first
      | exact jvalOfAppointment_no_key k _ h1 h2 h3 h4 h5 h6 h7 h8
      | simp [JVal.hasKey, JVal.hasKeyFields, jvalOfErr, validationErrJval,
              hmsg, herr, hname]

/-- A record-create response over a list-backed store contains no key
other than the schema keys, `message`, `error` and the validation
error name. -/
lemma recPost_stWrite_no_key (k : String)
    (h1 : ¬("patientName" = k)) (h2 : ¬("patientId" = k))
    (h3 : ¬("dateOfBirth" = k)) (h4 : ¬("condition" = k))
    (h5 : ¬("treatment" = k)) (h6 : ¬("medications" = k))
    (h7 : ¬("notes" = k))
    (hmsg : ¬("message" = k)) (herr : ¬("error" = k)) (hname : ¬("name" = k))
    (b : RecordBody) (st : ServerState) :
    (recordsPostHandler b (stWrite st)).1.body.hasKey k = false := by
  unfold recordsPostHandler stWrite
  by_cases hc : st.readyState = 1
  all_goals first
    | rw [if_pos hc]
    | rw [if_neg hc]
  all_goals cases hmk : mkRecord b
  all_goals
    first
      | exact jvalOfRecord_no_key k _ h1 h2 h3 h4 h5 h6 h7
      | simp [JVal.hasKey, JVal.hasKeyFields, jvalOfErr, validationErrJval,
              hmsg, herr, hname]

/-- A billing-create response over a list-backed store contains no key
other than the schema keys, `message`, `error` and the validation
error name. -/
lemma billPost_stWrite_no_key (k : String)
    (h1 : ¬("patientName" = k)) (h2 : ¬("patientId" = k))
    (h3 : ¬("serviceType" = k)) (h4 : ¬("amount" = k))
    (h5 : ¬("paymentMethod" = k)) (h6 : ¬("insuranceProvider" = k))
    (h7 : ¬("insurancePolicyNumber" = k)) (h8 : ¬("billingAddress" = k))
    (hmsg : ¬("message" = k)) (herr : ¬("error" = k)) (hname : ¬("name" = k))
    (b : BillingBody) (st : ServerState) :
    (billingsPostHandler b (stWrite st)).1.body.hasKey k = false := by
  unfold billingsPostHandler stWrite
  by_cases hc : st.readyState = 1
  all_goals first
    | rw [if_pos hc]
    | rw [if_neg hc]
  all_goals cases hmk : mkBilling b
  all_goals
    first
      | exact jvalOfBilling_no_key k _ h1 h2 h3 h4 h5 h6 h7 h8
      | simp [JVal.hasKey, JVal.hasKeyFields, jvalOfErr, validationErrJval,
              hmsg, herr, hname]

/-- No response of the app contains any key outside the fixed set of
schema, observability and error-envelope keys it emits, provided the
memory snapshot (Node's numeric `process.memoryUsage()` fields) does
not contain the key either. -/
lemma dispatch_no_key (k : String)
    (hk : ¬("message" = k) ∧ ¬("error" = k) ∧ ¬("name" = k) ∧ ¬("redirectTo" = k) ∧
          ¬("_id" = k) ∧ ¬("username" = k) ∧ ¬("email" = k) ∧ ¬("status" = k) ∧
          ¬("uptime" = k) ∧ ¬("timestamp" = k) ∧ ¬("database" = k) ∧
          ¬("environment" = k) ∧ ¬("port" = k) ∧ ¬("uptime_seconds" = k) ∧
          ¬("memory_usage" = k) ∧ ¬("database_status" = k) ∧ ¬("requests_total" = k) ∧
          ¬("patientName" = k) ∧ ¬("patientId" = k) ∧ ¬("date" = k) ∧ ¬("time" = k) ∧
          ¬("doctor" = k) ∧ ¬("reason" = k) ∧ ¬("notes" = k) ∧ ¬("dateOfBirth" = k) ∧
          ¬("condition" = k) ∧ ¬("treatment" = k) ∧ ¬("medications" = k) ∧
          ¬("serviceType" = k) ∧ ¬("amount" = k) ∧ ¬("paymentMethod" = k) ∧
          ¬("insuranceProvider" = k) ∧ ¬("insurancePolicyNumber" = k) ∧
          ¬("billingAddress" = k))
    (hash : String → String) (compare : String → String → Bool)
    (st : ServerState) (req : Request)
    (hmem : st.memory.hasKey k = false) :
    (dispatch hash compare st req).2.body.hasKey k = false := by
  obtain ⟨hmsg, herr, hname, hred, hid, hun, hem, hstat, hup, htime, hdb, henv, hport,
          hups, hmemu, hdbs, hreq, hpn, hpid, hdate, htm, hdoc, hrsn, hnts, hdob,
          hcond, htr, hmed, hsvc, hamt, hpay, hip, hipn, haddr⟩ := hk
  simp only [dispatch]
  by_cases h1 : req.method = "GET" ∧ req.path = "/"
  · rw [if_pos h1]
    simp [rootHandler, JVal.hasKey, JVal.hasKeyFields, hmsg, hstat, htime, henv, hport]
  rw [if_neg h1]
  by_cases h2 : req.method = "GET" ∧ req.path = "/health"
  · rw [if_pos h2]
    simp [healthHandler, JVal.hasKey, JVal.hasKeyFields, hstat, hup, htime, hdb]
  rw [if_neg h2]
  by_cases h3 : req.method = "GET" ∧ req.path = "/metrics"
  · rw [if_pos h3]
    simp [metricsHandler, JVal.hasKey, JVal.hasKeyFields, hups, hmemu, hdbs, hreq,
          htime, hmem]
  rw [if_neg h3]
  by_cases h4 : req.method = "POST" ∧ req.path = "/api/signup"
  · rw [if_pos h4]
    split <;> exact signup_no_key k hmsg _ _ _ _ _
  rw [if_neg h4]
  by_cases h5 : req.method = "POST" ∧ req.path = "/api/login"
  · rw [if_pos h5]
    exact login_stRead_no_key k hmsg herr hred _ _ _ _ _
  rw [if_neg h5]
  by_cases h6 : req.method = "GET" ∧ req.path = "/api/appointments"
  · rw [if_pos h6]
    exact apptGet_stRead_no_key k hpn hpid hdate htm hdoc hrsn hstat hnts hmsg herr _ _
  rw [if_neg h6]
  by_cases h7 : req.method = "POST" ∧ req.path = "/api/appointments"
  · rw [if_pos h7]
    split <;>
      exact apptPost_stWrite_no_key k hpn hpid hdate htm hdoc hrsn hstat hnts
        hmsg herr hname _ _
  rw [if_neg h7]
  by_cases h8 : req.method = "POST" ∧ req.path = "/api/records"
  · rw [if_pos h8]
    split <;>
      exact recPost_stWrite_no_key k hpn hpid hdob hcond htr hmed hnts
        hmsg herr hname _ _
  rw [if_neg h8]
  by_cases h9 : req.method = "GET" ∧ req.path = "/api/users"
  · rw [if_pos h9]
    exact users_stRead_no_key k hid hun hem hmsg herr _ _
  rw [if_neg h9]
  by_cases h10 : req.method = "POST" ∧ req.path = "/api/billings"
  · rw [if_pos h10]
    split <;>
      exact billPost_stWrite_no_key k hpn hpid hsvc hamt hpay hip hipn haddr
        hmsg herr hname _ _
  rw [if_neg h10]
  simp [JVal.hasKey]

/-- C4 counterexample: the inclusive projection includes the
store-assigned `_id`, so at a concrete one-user store the response
object has keys `{_id, username, email}` — not "exactly {username,
email} and nothing else" as the claim states. -/
theorem C4_users_id_included :
    (usersHandler (Except.ok st0.users)).status = 200 ∧
    (usersHandler (Except.ok st0.users)).body.elems =
      [JVal.obj [("_id", JVal.str "64b7f0c2a1d2e3f405162738"),
                 ("username", JVal.str "bob"),
                 ("email", JVal.str "bob@x.com")]] ∧
    ((usersHandler (Except.ok st0.users)).body.elems.all
      (fun v => v.topKeys == ["username", "email"])) = false :=
  ⟨rfl, rfl, rfl⟩

/-- C4 (amended): a successful `GET /api/users` response is exactly the
list of stored accounts projected to `{_id, username, email}` — the
inclusive projection always carries the document id — one object per
account with exactly those three top-level keys; no `password` or
`passwordHash` key appears anywhere in either branch of the users
response, nor in the response of ANY route of the app (given that the
process memory snapshot, numeric by construction, holds no such key). -/
theorem C4_users_projection :
    (∀ us : List StoredUser,
      (usersHandler (Except.ok us)).status = 200 ∧
      (usersHandler (Except.ok us)).body.elems =
        us.map (fun u => JVal.obj [("_id", JVal.str u.oid),
                                   ("username", JVal.str u.doc.username),
                                   ("email", JVal.str u.doc.email)]) ∧
      ((usersHandler (Except.ok us)).body.elems.all
        (fun v => v.topKeys == ["_id", "username", "email"])) = true ∧
      (usersHandler (Except.ok us)).body.hasKey "password" = false ∧
      (usersHandler (Except.ok us)).body.hasKey "passwordHash" = false) ∧
    (∀ m : String,
      (usersHandler (Except.error (DbErr.other m))).body.hasKey "password" = false ∧
      (usersHandler (Except.error (DbErr.other m))).body.hasKey "passwordHash" = false) ∧
    (∀ (hash : String → String) (compare : String → String → Bool)
       (st : ServerState) (req : Request),
      st.memory.hasKey "password" = false →
      st.memory.hasKey "passwordHash" = false →
      (dispatch hash compare st req).2.body.hasKey "password" = false ∧
      (dispatch hash compare st req).2.body.hasKey "passwordHash" = false) := by
  refine ⟨?_, ?_, ?_⟩
  · intro us
    refine ⟨rfl, by simp [usersHandler, usersProjection, JVal.elems], ?_, ?_, ?_⟩
    · simpa [usersHandler] using usersProjection_shape us
    · simpa [usersHandler] using
        usersProjection_no_other_key "password" (by decide) (by decide) (by decide) us
    · simpa [usersHandler] using
        usersProjection_no_other_key "passwordHash" (by decide) (by decide) (by decide) us
  · intro m
    constructor <;>
      simp [usersHandler, jvalOfErr, JVal.hasKey, JVal.hasKeyFields]
  · intro hash compare st req hm1 hm2
    exact ⟨dispatch_no_key "password" (by decide) hash compare st req hm1,
           dispatch_no_key "passwordHash" (by decide) hash compare st req hm2⟩

/-- Closed instantiation of C4: on the concrete connected state (whose
memory snapshot has only a numeric field), the users-list response
through full dispatch exposes no password key. -/
theorem C4_users_projection_witness :
    st0.memory.hasKey "password" = false ∧
    (dispatch hash0 cmp0 st0
      { method := "GET", path := "/api/users", reqBody := [] }).2.body.hasKey "password"
        = false ∧
    (dispatch hash0 cmp0 st0
      { method := "GET", path := "/api/users", reqBody := [] }).2.body.hasKey "passwordHash"
        = false :=
  ⟨rfl,
   (C4_users_projection.2.2 hash0 cmp0 st0
      { method := "GET", path := "/api/users", reqBody := [] } rfl rfl).1,
   (C4_users_projection.2.2 hash0 cmp0 st0
      { method := "GET", path := "/api/users", reqBody := [] } rfl rfl).2⟩

/-- C5: a signup with all fields present and no conflict persists an
account whose `password` field is the hash of the submitted plaintext
(so, for a hash that moves the plaintext, never the plaintext itself)
and responds 201 with only the confirmation message. -/
theorem C5_signup_stores_hash (u e p : String) (db : SignupDb)
    (hash : String → String)
    (hu : u ≠ "") (he : e ≠ "") (hp : p ≠ "")
    (hf : db.findByEmail = Except.ok none)
    (hg : db.findByUsername = Except.ok none)
    (hs : db.saveResult = Except.ok ())
    (hh : hash p ≠ p) :
    (signupHandler (some u) (some e) (some p) db hash).1 =
      { status := 201,
        body := JVal.obj [("message", JVal.str "User registered successfully!")] } ∧
    (signupHandler (some u) (some e) (some p) db hash).2.2 =
      some { username := u, email := e, password := hash p } ∧
    (∀ d : UserDoc,
      (signupHandler (some u) (some e) (some p) db hash).2.2 = some d →
      d.password = hash p ∧ d.password ≠ p) := by
  have h2 : (signupHandler (some u) (some e) (some p) db hash).2.2 =
      some { username := u, email := e, password := hash p } := by
    simp [signupHandler, hu, he, hp, hf, hg, hs]
  refine ⟨by simp [signupHandler, hu, he, hp, hf, hg, hs], h2, ?_⟩
  intro d hd
  rw [h2] at hd
  cases hd
  exact ⟨rfl, hh⟩

/-- Closed instantiation of C5: a concrete signup against a free store
with the concrete bcrypt stand-in. -/
theorem C5_signup_stores_hash_witness :
    (signupHandler (some "alice") (some "a@x.com") (some "pw123456") dbAllFree hash0).1 =
      { status := 201,
        body := JVal.obj [("message", JVal.str "User registered successfully!")] } ∧
    (signupHandler (some "alice") (some "a@x.com") (some "pw123456") dbAllFree hash0).2.2 =
      some { username := "alice", email := "a@x.com",
             password := hash0 "pw123456" } :=
  ⟨(C5_signup_stores_hash "alice" "a@x.com" "pw123456" dbAllFree hash0
      (by decide) (by decide) (by decide) rfl rfl rfl (by decide)).1,
   (C5_signup_stores_hash "alice" "a@x.com" "pw123456" dbAllFree hash0
      (by decide) (by decide) (by decide) rfl rfl rfl (by decide)).2.1⟩

/-- The serialized appointment document reports its `status` path. -/
lemma jvalOfAppointment_statusKey (a : AppointmentDoc) :
    (jvalOfAppointment a).getKey "status" = some (JVal.str a.status) := by
  rcases a with ⟨pn, pid, d, t, doc, r, s, n⟩
  rcases pid <;> rcases t <;> rcases doc <;> rcases r <;>
    simp [jvalOfAppointment, optField, JVal.getKey, List.lookup]

/-- C6: an appointment request with the required `patientName` and
`date` but no `status` stores and returns a document whose status is
"Scheduled", with a 201 response. -/
theorem C6_appointment_default_status (b : AppointmentBody) (pn d : String)
    (hpn1 : b.patientName = some pn) (hpn : pn ≠ "")
    (hd1 : b.date = some d) (hd : d ≠ "")
    (hs : b.status = none) :
    (appointmentsPostHandler b (Except.ok ())).1.status = 201 ∧
    ((appointmentsPostHandler b (Except.ok ())).2.map AppointmentDoc.status) =
      some "Scheduled" ∧
    (appointmentsPostHandler b (Except.ok ())).1.body.getKey "status" =
      some (JVal.str "Scheduled") := by
  have hmk : mkAppointment b =
      some { patientName := pn, patientId := b.patientId, date := d,
             time := b.time, doctor := b.doctor, reason := b.reason,
             status := "Scheduled", notes := b.notes } := by
    simp [mkAppointment, hpn1, hd1, hs, hpn, hd]
  refine ⟨?_, ?_, ?_⟩
  · simp [appointmentsPostHandler, hmk]
  · simp [appointmentsPostHandler, hmk]
  · simp [appointmentsPostHandler, hmk, jvalOfAppointment_statusKey]

/-- Closed instantiation of C6: the spec scenario `{patientName:"Jane
Doe", date:"2025-01-01"}` with no status. -/
theorem C6_appointment_default_status_witness :
    (appointmentsPostHandler
      { patientName := some "Jane Doe", patientId := none,
        date := some "2025-01-01", time := none, doctor := none,
        reason := none, status := none, notes := none }
      (Except.ok ())).1.status = 201 ∧
    ((appointmentsPostHandler
      { patientName := some "Jane Doe", patientId := none,
        date := some "2025-01-01", time := none, doctor := none,
        reason := none, status := none, notes := none }
      (Except.ok ())).2.map AppointmentDoc.status) = some "Scheduled" ∧
    (appointmentsPostHandler
      { patientName := some "Jane Doe", patientId := none,
        date := some "2025-01-01", time := none, doctor := none,
        reason := none, status := none, notes := none }
      (Except.ok ())).1.body.getKey "status" = some (JVal.str "Scheduled") :=
  C6_appointment_default_status
    { patientName := some "Jane Doe", patientId := none,
      date := some "2025-01-01", time := none, doctor := none,
      reason := none, status := none, notes := none }
    "Jane Doe" "2025-01-01" rfl (by decide) rfl (by decide) rfl

/-- C10: an appointment request that supplies a `status` string stores
and returns exactly that string — the supplied value overrides the
default and no enumeration of allowed statuses is enforced (any string
is accepted with 201). -/
theorem C10_appointment_status_override (b : AppointmentBody) (pn d s : String)
    (hpn1 : b.patientName = some pn) (hpn : pn ≠ "")
    (hd1 : b.date = some d) (hd : d ≠ "")
    (hs : b.status = some s) :
    (appointmentsPostHandler b (Except.ok ())).1.status = 201 ∧
    ((appointmentsPostHandler b (Except.ok ())).2.map AppointmentDoc.status) =
      some s ∧
    (appointmentsPostHandler b (Except.ok ())).1.body.getKey "status" =
      some (JVal.str s) := by
  have hmk : mkAppointment b =
      some { patientName := pn, patientId := b.patientId, date := d,
             time := b.time, doctor := b.doctor, reason := b.reason,
             status := s, notes := b.notes } := by
    simp [mkAppointment, hpn1, hd1, hs, hpn, hd]
  refine ⟨?_, ?_, ?_⟩
  · simp [appointmentsPostHandler, hmk]
  · simp [appointmentsPostHandler, hmk]
  · simp [appointmentsPostHandler, hmk, jvalOfAppointment_statusKey]

/-- Closed instantiation of C10: a status value outside any plausible
enumeration is stored and echoed verbatim. -/
theorem C10_appointment_status_override_witness :
    (appointmentsPostHandler
      { patientName := some "Jane Doe", patientId := none,
        date := some "2025-01-01", time := none, doctor := none,
        reason := none, status := some "NotARealStatus42", notes := none }
      (Except.ok ())).1.status = 201 ∧
    ((appointmentsPostHandler
      { patientName := some "Jane Doe", patientId := none,
        date := some "2025-01-01", time := none, doctor := none,
        reason := none, status := some "NotARealStatus42", notes := none }
      (Except.ok ())).2.map AppointmentDoc.status) = some "NotARealStatus42" ∧
    (appointmentsPostHandler
      { patientName := some "Jane Doe", patientId := none,
        date := some "2025-01-01", time := none, doctor := none,
        reason := none, status := some "NotARealStatus42", notes := none }
      (Except.ok ())).1.body.getKey "status" = some (JVal.str "NotARealStatus42") :=
  C10_appointment_status_override
    { patientName := some "Jane Doe", patientId := none,
      date := some "2025-01-01", time := none, doctor := none,
      reason := none, status := some "NotARealStatus42", notes := none }
    "Jane Doe" "2025-01-01" "NotARealStatus42" rfl (by decide) rfl (by decide) rfl

/-- A response that carries a `message` field in its body, or is a
200/201 success, or the framework 404. -/
def msgOrOk (r : HttpResponse) : Bool :=
  r.body.hasKey "message" || r.status == 200 || r.status == 201 || r.status == 404

/-- Every signup response body carries a `message` field. -/
lemma signup_msgOrOk (username email password : Option String)
    (db : SignupDb) (hash : String → String) :
    msgOrOk (signupHandler username email password db hash).1 = true := by
  unfold signupHandler signupCatch
  repeat' split
  all_goals simp [msgOrOk, JVal.hasKey, JVal.hasKeyFields]

/-- Every login response body carries a `message` field. -/
lemma login_msgOrOk (e p : String) (dbFind : Except DbErr (Option UserDoc))
    (compare : String → String → Bool) :
    msgOrOk (loginHandler e p dbFind compare).1 = true := by
  unfold loginHandler
  repeat' split
  all_goals simp [msgOrOk, JVal.hasKey, JVal.hasKeyFields]

/-- A users-list response carries a `message` field unless it is the
200 success. -/
lemma users_msgOrOk (dbv : Except DbErr (List StoredUser)) :
    msgOrOk (usersHandler dbv) = true := by
  cases dbv <;> simp [msgOrOk, usersHandler, JVal.hasKey, JVal.hasKeyFields]

/-- An appointments-list response carries a `message` field unless it
is the 200 success. -/
lemma apptGet_msgOrOk (dbv : Except DbErr (List AppointmentDoc)) :
    msgOrOk (appointmentsGetHandler dbv) = true := by
  cases dbv <;>
    simp [msgOrOk, appointmentsGetHandler, JVal.hasKey, JVal.hasKeyFields]

/-- An appointment-create response carries a `message` field unless it
is the 201 success. -/
lemma apptPost_msgOrOk (b : AppointmentBody) (s : Except DbErr Unit) :
    msgOrOk (appointmentsPostHandler b s).1 = true := by
  unfold appointmentsPostHandler
  repeat' split
  all_goals simp [msgOrOk, JVal.hasKey, JVal.hasKeyFields]

/-- A record-create response carries a `message` field unless it is the
201 success. -/
lemma recPost_msgOrOk (b : RecordBody) (s : Except DbErr Unit) :
    msgOrOk (recordsPostHandler b s).1 = true := by
  unfold recordsPostHandler
  repeat' split
  all_goals simp [msgOrOk, JVal.hasKey, JVal.hasKeyFields]

/-- A billing-create response carries a `message` field unless it is
the 201 success. -/
lemma billPost_msgOrOk (b : BillingBody) (s : Except DbErr Unit) :
    msgOrOk (billingsPostHandler b s).1 = true := by
  unfold billingsPostHandler
  repeat' split
  all_goals simp [msgOrOk, JVal.hasKey, JVal.hasKeyFields]

/-- C9 counterexample: when the store lookup fails, the login handler
responds 500 with the caught internal error object included verbatim
under the `error` key of the body — the raw store error IS exposed to
the client, refuting the no-internal-error part of the claim. -/
theorem C9_error_object_exposed :
    (loginHandler "bob@x.com" "pw123456"
      (Except.error (DbErr.other "server selection timed out")) cmp0).1.status = 500 ∧
    (loginHandler "bob@x.com" "pw123456"
      (Except.error (DbErr.other "server selection timed out")) cmp0).1.body.hasKey "error"
        = true ∧
    (loginHandler "bob@x.com" "pw123456"
      (Except.error (DbErr.other "server selection timed out")) cmp0).1.body.getKey "error"
        = some (jvalOfErr (DbErr.other "server selection timed out")) :=
  ⟨rfl, rfl, rfl⟩

/-- Every response of the app satisfies `msgOrOk`: anything that is not
a success or the framework 404 carries a `message` field. -/
lemma dispatch_message_or_ok (hash : String → String)
    (compare : String → String → Bool) (st : ServerState) (req : Request) :
    msgOrOk (dispatch hash compare st req).2 = true := by
  simp only [dispatch]
  by_cases h1 : req.method = "GET" ∧ req.path = "/"
  · rw [if_pos h1]
    simp [msgOrOk, rootHandler, JVal.hasKey, JVal.hasKeyFields]
  rw [if_neg h1]
  by_cases h2 : req.method = "GET" ∧ req.path = "/health"
  · rw [if_pos h2]
    simp [msgOrOk, healthHandler, JVal.hasKey, JVal.hasKeyFields]
  rw [if_neg h2]
  by_cases h3 : req.method = "GET" ∧ req.path = "/metrics"
  · rw [if_pos h3]
    simp [msgOrOk, metricsHandler]
  rw [if_neg h3]
  by_cases h4 : req.method = "POST" ∧ req.path = "/api/signup"
  · rw [if_pos h4]
    split <;> exact signup_msgOrOk _ _ _ _ _
  rw [if_neg h4]
  by_cases h5 : req.method = "POST" ∧ req.path = "/api/login"
  · rw [if_pos h5]
    exact login_msgOrOk _ _ _ _
  rw [if_neg h5]
  by_cases h6 : req.method = "GET" ∧ req.path = "/api/appointments"
  · rw [if_pos h6]
    exact apptGet_msgOrOk _
  rw [if_neg h6]
  by_cases h7 : req.method = "POST" ∧ req.path = "/api/appointments"
  · rw [if_pos h7]
    split <;> exact apptPost_msgOrOk _ _
  rw [if_neg h7]
  by_cases h8 : req.method = "POST" ∧ req.path = "/api/records"
  · rw [if_pos h8]
    split <;> exact recPost_msgOrOk _ _
  rw [if_neg h8]
  by_cases h9 : req.method = "GET" ∧ req.path = "/api/users"
  · rw [if_pos h9]
    exact users_msgOrOk _
  rw [if_neg h9]
  by_cases h10 : req.method = "POST" ∧ req.path = "/api/billings"
  · rw [if_pos h10]
    split <;> exact billPost_msgOrOk _ _
  rw [if_neg h10]
  simp [msgOrOk, JVal.hasKey]

/-- C9 (amended): every error response (status 400, 401 or 500) of
every route is a JSON body containing a `message` field; however, the
login handler's 500 response (like the list/create handlers' catch
responses) additionally embeds the caught internal error object under
an `error` key, so raw internal errors ARE exposed on those paths. -/
theorem C9_error_bodies :
    (∀ (hash : String → String) (compare : String → String → Bool)
       (st : ServerState) (req : Request),
      ((dispatch hash compare st req).2.status = 400 ∨
       (dispatch hash compare st req).2.status = 401 ∨
       (dispatch hash compare st req).2.status = 500) →
      (dispatch hash compare st req).2.body.hasKey "message" = true) ∧
    (∀ (e p : String) (err : DbErr) (compare : String → String → Bool),
      ¬(e = "admin" ∧ p = "admin123") →
      (loginHandler e p (Except.error err) compare).1.status = 500 ∧
      (loginHandler e p (Except.error err) compare).1.body.getKey "error"
        = some (jvalOfErr err)) := by
  constructor
  · intro hash compare st req h
    have hM := dispatch_message_or_ok hash compare st req
    rcases h with h | h | h <;> simp [msgOrOk, h] at hM <;> exact hM
  · intro e p err compare h
    constructor <;> simp [loginHandler, h, JVal.getKey, List.lookup]

/-- Closed instantiation of C9: a login against a disconnected store
through dispatch gives a 500 whose body has a `message` field, and the
handler-level 500 carries the internal error under `error`. -/
theorem C9_error_bodies_witness :
    (dispatch hash0 cmp0 stDisc
      { method := "POST", path := "/api/login",
        reqBody := [("email", JVal.str "bob@x.com"),
                    ("password", JVal.str "pw123456")] }).2.body.hasKey "message" = true ∧
    (loginHandler "bob@x.com" "pw123456"
      (Except.error (DbErr.other "buffering timed out")) cmp0).1.body.getKey "error"
        = some (jvalOfErr (DbErr.other "buffering timed out")) :=
  ⟨C9_error_bodies.1 hash0 cmp0 stDisc
      { method := "POST", path := "/api/login",
        reqBody := [("email", JVal.str "bob@x.com"),
                    ("password", JVal.str "pw123456")] }
      (Or.inr (Or.inr rfl)),
   (C9_error_bodies.2 "bob@x.com" "pw123456" (DbErr.other "buffering timed out") cmp0
      (by simp)).2⟩
